import Mathlib

/-
Verification development for the modal-dictation repository.

The definitions below are a shallow embedding of the Rust sources:
  src/activation/mod.rs      (ActivationManager and its inactivity timer task)
  src/config/manager.rs      (ConfigManager: watch loop, error tracker, restart supervisor)
  src/config/mod.rs          (Config data model)
  src/overlay/state.rs       (OverlayRenderState, ReconnectionState)
  src/overlay/renderer.rs    (color parsing with fallback)
  src/overlay/manager.rs     (parse_position_with_fallback)
  src/overlay/wayland/position.rs (OverlayPosition)

Time is modelled as absolute Nat nanosecond timestamps; tokio Instants become
Nat arguments.  A tokio watch channel is modelled as a value plus a change
counter plus a flag saying whether any receiver is still alive (Sender::send
only stores the value and bumps the counter when a receiver exists, and
returns whether it did).
-/

/-- Nanoseconds per second, the unit conversion used by std::time::Duration. -/
def nsPerSec : Nat := 1000000000

/-- Shallow embedding of std::time::Duration as a count of nanoseconds. -/
structure Duration where
  nanos : Nat
deriving DecidableEq, Repr

/-- Duration::from_secs. -/
def Duration.from_secs (s : Nat) : Duration := ⟨s * nsPerSec⟩

/-- Duration::from_millis. -/
def Duration.from_millis (ms : Nat) : Duration := ⟨ms * 1000000⟩

/-- Duration::as_secs: the whole-second part, truncating toward zero. -/
def Duration.as_secs (d : Duration) : Nat := d.nanos / nsPerSec

/-- Model of a tokio watch channel (the Latest-Value Channel): current value,
change counter, and whether any receiver is still alive. -/
structure WatchChannel (α : Type) where
  value : α
  counter : Nat
  receiversAlive : Bool
deriving DecidableEq, Repr

/-- Sender::send: stores the value and bumps the change counter only when a
receiver exists; returns whether the send succeeded. -/
def WatchChannel.send {α : Type} (ch : WatchChannel α) (v : α) : WatchChannel α × Bool :=
  if ch.receiversAlive then
    ({ value := v, counter := ch.counter + 1, receiversAlive := true }, true)
  else
    (ch, false)

/-- SystemState from src/activation/mod.rs. -/
inductive SystemState
  | Asleep
  | Awake
deriving DecidableEq, Repr

/-- StateTransition from src/activation/mod.rs. -/
inductive StateTransition
  | WakeWord
  | SleepCommand
  | InactivityTimeout
deriving DecidableEq, Repr

/-- ActivationManager state: the Mutex-guarded state and transition reason,
the atomic timeout_secs, and the watch channel written by state_tx. -/
structure ActivationManager where
  state : SystemState
  transition : StateTransition
  timeout_secs : Nat
  channel : WatchChannel (SystemState × StateTransition)
deriving DecidableEq, Repr

/-- ActivationManager::new: starts Asleep, seeds the watch channel with
(Asleep, WakeWord); `receivers` records whether any subscriber exists. -/
def ActivationManager.new (timeout_secs : Nat) (receivers : Bool) : ActivationManager :=
  { state := SystemState.Asleep
    transition := StateTransition.WakeWord
    timeout_secs := timeout_secs
    channel := { value := (SystemState.Asleep, StateTransition.WakeWord)
                 counter := 0
                 receiversAlive := receivers } }

/-- ActivationManager::current_transition: reads state_tx.borrow().1. -/
def ActivationManager.current_transition (m : ActivationManager) : StateTransition :=
  m.channel.value.2

/-- ActivationManager::current_state (the uncontended try_lock path). -/
def ActivationManager.current_state (m : ActivationManager) : SystemState :=
  m.state

/-- ActivationManager::wake_via_wake_word: Asleep -> Awake only; otherwise the
guard `if *state == SystemState::Asleep` fails and nothing happens. -/
def ActivationManager.wake_via_wake_word (m : ActivationManager) : ActivationManager :=
  if m.state = SystemState.Asleep then
    { m with
      state := SystemState.Awake
      transition := StateTransition.WakeWord
      channel := (m.channel.send (SystemState.Awake, StateTransition.WakeWord)).1 }
  else m

/-- ActivationManager::sleep_via_command: Awake -> Asleep only; otherwise the
guard `if *state == SystemState::Awake` fails and nothing happens. -/
def ActivationManager.sleep_via_command (m : ActivationManager) : ActivationManager :=
  if m.state = SystemState.Awake then
    { m with
      state := SystemState.Asleep
      transition := StateTransition.SleepCommand
      channel := (m.channel.send (SystemState.Asleep, StateTransition.SleepCommand)).1 }
  else m

/-- ActivationManager::set_timeout: stores timeout.as_secs() into the atomic
and notifies the timer task; it touches neither the state nor the channel. -/
def ActivationManager.set_timeout (m : ActivationManager) (timeout : Duration) : ActivationManager :=
  { m with timeout_secs := timeout.as_secs }

/-- Body of the `sleep_future` branch of the timer task's select loop: if the
state is still Awake, transition to Asleep with InactivityTimeout and publish. -/
def ActivationManager.timer_fire (m : ActivationManager) : ActivationManager :=
  if m.state = SystemState.Awake then
    { m with
      state := SystemState.Asleep
      transition := StateTransition.InactivityTimeout
      channel := (m.channel.send (SystemState.Asleep, StateTransition.InactivityTimeout)).1 }
  else m

/-- Combined state of an ActivationManager and its background timer task:
`armed` says the timer's inner select loop is running (it is while Awake),
`deadline` is the absolute expiry instant of the pinned sleep_future (nanos). -/
structure ActivationSys where
  mgr : ActivationManager
  armed : Bool
  deadline : Nat
deriving DecidableEq, Repr

/-- Initial system: fresh manager, timer task waiting for the state to become
Awake (not yet armed). -/
def ActivationSys.boot (m : ActivationManager) : ActivationSys :=
  { mgr := m, armed := false, deadline := 0 }

/-- wake at absolute time `now`: on Asleep -> Awake the timer task leaves its
poll loop, loads timeout_secs and arms sleep(Duration::from_secs(timeout)). -/
def ActivationSys.wakeAt (s : ActivationSys) (now : Nat) : ActivationSys :=
  if s.mgr.state = SystemState.Asleep then
    { mgr := s.mgr.wake_via_wake_word
      armed := true
      deadline := now + s.mgr.timeout_secs * nsPerSec }
  else s

/-- sleep_via_command at time `now`: only the manager changes; the timer task
is not notified and keeps waiting on its current deadline. -/
def ActivationSys.sleepAt (s : ActivationSys) (_now : Nat) : ActivationSys :=
  { s with mgr := s.mgr.sleep_via_command }

/-- on_command_activity / on_dictation_activity at time `now`: while Awake the
activity notification makes the armed timer reload timeout_secs and restart
sleep(Duration::from_secs(timeout)) from now; while Asleep it is a no-op. -/
def ActivationSys.activityAt (s : ActivationSys) (now : Nat) : ActivationSys :=
  if s.mgr.state = SystemState.Awake ∧ s.armed then
    { s with deadline := now + s.mgr.timeout_secs * nsPerSec }
  else s

/-- set_timeout at time `now`: the new whole-second timeout is stored, then the
timeout_changed notification makes the armed timer either disarm (if the state
is Asleep) or restart sleep(Duration::from_secs(new timeout)) from now. -/
def ActivationSys.setTimeoutAt (s : ActivationSys) (now : Nat) (d : Duration) : ActivationSys :=
  let mgr := s.mgr.set_timeout d
  if s.armed then
    if mgr.state = SystemState.Awake then
      { mgr := mgr, armed := true, deadline := now + mgr.timeout_secs * nsPerSec }
    else
      { mgr := mgr, armed := false, deadline := s.deadline }
  else
    { s with mgr := mgr }

/-- Timer expiry check at time `now`: once the deadline has elapsed, the
sleep_future branch runs (timer_fire) and the inner select loop breaks. -/
def ActivationSys.expireAt (s : ActivationSys) (now : Nat) : ActivationSys :=
  if s.armed ∧ s.deadline ≤ now then
    { mgr := s.mgr.timer_fire, armed := false, deadline := s.deadline }
  else s

/-- OverlayConfig from src/config/mod.rs: four raw strings. -/
structure OverlayConfig where
  awake_color : String
  asleep_color : String
  error_color : String
  position : String
deriving DecidableEq, Repr

/-- DictationServiceConfig from src/config/mod.rs. -/
structure DictationServiceConfig where
  host : String
  port : Nat
deriving DecidableEq, Repr

/-- Config from src/config/mod.rs (immutable value object replaced wholesale). -/
structure Config where
  auto_sleep_timeout_secs : Nat
  command_pause_threshold_ms : Nat
  dictation_pause_threshold_ms : Nat
  overlay : OverlayConfig
  dictation_service : DictationServiceConfig
  enable_activation_demo : Bool
  activation_demo_interval_secs : Nat
deriving DecidableEq, Repr

/-- WatcherHealth from src/config/manager.rs. -/
inductive WatcherHealth
  | Healthy
  | Restarting (attempt : Nat)
  | Failed (reason : String)
deriving DecidableEq, Repr

/-- WatcherErrorTracker from src/config/manager.rs: a consecutive-error count,
the instant of the previous error (absolute nanos), and the constants set by
WatcherErrorTracker::new. -/
structure WatcherErrorTracker where
  consecutive_notify_errors : Nat
  last_notify_error_time : Option Nat
  max_consecutive_errors : Nat
  error_time_window : Duration
deriving DecidableEq, Repr

/-- WatcherErrorTracker::new: threshold 5 errors within a 10 second window. -/
def WatcherErrorTracker.new : WatcherErrorTracker :=
  { consecutive_notify_errors := 0
    last_notify_error_time := none
    max_consecutive_errors := 5
    error_time_window := Duration.from_secs 10 }

/-- WatcherErrorTracker::record_error at instant `now`: if more than the window
elapsed since the previous error, zero the counter first; then increment,
stamp `now`, and report whether the threshold has been reached. -/
def WatcherErrorTracker.record_error (tr : WatcherErrorTracker) (now : Nat) :
    WatcherErrorTracker × Bool :=
  let tr1 :=
    match tr.last_notify_error_time with
    | some last_time =>
        if now - last_time > tr.error_time_window.nanos then
          { tr with consecutive_notify_errors := 0 }
        else tr
    | none => tr
  let tr2 := { tr1 with
               consecutive_notify_errors := tr1.consecutive_notify_errors + 1
               last_notify_error_time := some now }
  (tr2, decide (tr2.consecutive_notify_errors ≥ tr2.max_consecutive_errors))

/-- WatcherErrorTracker::reset. -/
def WatcherErrorTracker.reset (tr : WatcherErrorTracker) : WatcherErrorTracker :=
  { tr with consecutive_notify_errors := 0, last_notify_error_time := none }

/-- Outcome of one iteration of the watch loop for the surrounding supervisor. -/
inductive LoopOutcome
  | keepRunning
  | fatalExit (msg : String)
deriving DecidableEq, Repr

/-- The WatcherMessage::NotifyError arm of the watch loop's select: record the
error; when record_error reports the threshold reached the loop returns Err,
surfacing the error to the supervisor, otherwise it keeps running. -/
def watchLoopOnNotifyError (tr : WatcherErrorTracker) (now : Nat) :
    WatcherErrorTracker × LoopOutcome :=
  let res := tr.record_error now
  if res.2 then
    (res.1, LoopOutcome.fatalExit "Too many consecutive notify errors")
  else
    (res.1, LoopOutcome.keepRunning)

/-- WatcherRestartState from src/config/manager.rs. -/
structure WatcherRestartState where
  attempt_count : Nat
  max_attempts : Nat
deriving DecidableEq, Repr

/-- WatcherRestartState::new. -/
def WatcherRestartState.new (max_attempts : Nat) : WatcherRestartState :=
  { attempt_count := 0, max_attempts := max_attempts }

/-- WatcherRestartState::should_retry. -/
def WatcherRestartState.should_retry (rs : WatcherRestartState) : Bool :=
  decide (rs.attempt_count < rs.max_attempts)

/-- WatcherRestartState::record_attempt: increments and returns the new count. -/
def WatcherRestartState.record_attempt (rs : WatcherRestartState) :
    WatcherRestartState × Nat :=
  ({ rs with attempt_count := rs.attempt_count + 1 }, rs.attempt_count + 1)

/-- WatcherRestartState::reset. -/
def WatcherRestartState.reset (rs : WatcherRestartState) : WatcherRestartState :=
  { rs with attempt_count := 0 }

/-- WatcherRestartState::backoff_duration, in milliseconds:
1000 * (1 << attempt_count.min(5)). -/
def WatcherRestartState.backoff_duration_ms (rs : WatcherRestartState) : Nat :=
  1000 * 2 ^ min rs.attempt_count 5

/-- The reason string built by the supervisor when retries are exhausted. -/
def watcherFailedReason : String :=
  "Config watcher failed permanently after 5 attempts"

/-- Trace of a supervisor run: the WatcherHealth values passed to
health_tx.send in order, the backoff sleeps inserted before relaunches (ms),
and whether the supervisor loop broke permanently. -/
structure SupervisorTrace where
  published : List WatcherHealth
  backoffsMs : List Nat
  stopped : Bool
deriving DecidableEq, Repr

/-- ConfigManager::spawn_supervisor, driven by the list of lifetimes of the
successive watch-loop incarnations it spawns.  Each loop iteration first
publishes Healthy when attempt_count == 0, then spawns a watcher and races
its handle against sleep(60 s).  An incarnation living at least 60 seconds
loses that race: the sleep arm fires at the 60 second mark, resets the
counter and publishes Healthy when attempts > 0, and the loop relaunches
immediately with no backoff (the old incarnation is leaked, its later exit
never observed; at an exact 60.000 s tie tokio picks a ready branch at
random, and the model takes the sleep arm).  A shorter-lived incarnation's
exit wins the race: the exit arm's own uptime check cannot fire there, and
either an attempt is recorded (publishing Restarting and sleeping the
backoff before relaunching) or Failed is published and the loop breaks. -/
def supervisorRun (rs : WatcherRestartState) (uptimes : List Duration) : SupervisorTrace :=
  let topPub : List WatcherHealth :=
    if rs.attempt_count = 0 then [WatcherHealth.Healthy] else []
  match uptimes with
  | [] => { published := topPub, backoffsMs := [], stopped := false }
  | uptime :: rest =>
    if uptime.as_secs ≥ 60 then
      let extraPub : List WatcherHealth :=
        if 0 < rs.attempt_count then [WatcherHealth.Healthy] else []
      let tr := supervisorRun rs.reset rest
      { published := topPub ++ extraPub ++ tr.published
        backoffsMs := tr.backoffsMs
        stopped := tr.stopped }
    else
      let rs1 := if uptime.as_secs ≥ 60 then rs.reset else rs
      if rs1.should_retry then
        let res := rs1.record_attempt
        let backoff := res.1.backoff_duration_ms
        let tr := supervisorRun res.1 rest
        { published := topPub ++ WatcherHealth.Restarting res.2 :: tr.published
          backoffsMs := backoff :: tr.backoffsMs
          stopped := tr.stopped }
      else
        { published := topPub ++ [WatcherHealth.Failed watcherFailedReason]
          backoffsMs := []
          stopped := true }

/-- Result of tokio::fs::read_to_string in reload_config. -/
inductive ReadResult
  | ok (contents : String)
  | ioErr
deriving DecidableEq, Repr

/-- ConfigManager::reload_config.  `parse` stands for toml::from_str::<Config>
(configuration-file parsing is an external collaborator).  On a successful
parse the new Config is broadcast; a failed broadcast (all subscribers gone)
is the only error path.  Read and parse failures are logged and absorbed:
the channel is untouched and Ok(()) is returned. -/
def reload_config (parse : String → Option Config) (read : ReadResult)
    (ch : WatchChannel Config) : WatchChannel Config × Except String Unit :=
  match read with
  | ReadResult.ok contents =>
    match parse contents with
    | some new_config =>
      let res := ch.send new_config
      if res.2 then
        (res.1, Except.ok ())
      else
        (res.1, Except.error "All config subscribers have been dropped")
    | none => (ch, Except.ok ())
  | ReadResult.ioErr => (ch, Except.ok ())

/-- The debounce-elapsed arm of the watch loop: run reload_config; only an
Err return makes the loop exit, otherwise it keeps running. -/
def watchLoopOnDebounceElapsed (parse : String → Option Config) (read : ReadResult)
    (ch : WatchChannel Config) : WatchChannel Config × LoopOutcome :=
  match reload_config parse read ch with
  | (ch', Except.ok _) => (ch', LoopOutcome.keepRunning)
  | (ch', Except.error e) => (ch', LoopOutcome.fatalExit e)

/-- OverlayColor from src/overlay/renderer.rs: an RGBA color. -/
structure OverlayColor where
  r : Nat
  g : Nat
  b : Nat
  a : Nat
deriving DecidableEq, Repr

/-- OverlayColor::new. -/
def OverlayColor.new (r g b a : Nat) : OverlayColor := ⟨r, g, b, a⟩

/-- OverlayColor::opaque: a fully opaque color (alpha 255); renamed rgb here. -/
def OverlayColor.rgb (r g b : Nat) : OverlayColor := ⟨r, g, b, 255⟩

/-- Built-in default awake color (src/overlay/defaults.rs): green. -/
def DEFAULT_AWAKE_COLOR : OverlayColor := OverlayColor.rgb 0 255 0

/-- Built-in default asleep color (src/overlay/defaults.rs): gray. -/
def DEFAULT_ASLEEP_COLOR : OverlayColor := OverlayColor.rgb 128 128 128

/-- Built-in default error color (src/overlay/defaults.rs): red. -/
def DEFAULT_ERROR_COLOR : OverlayColor := OverlayColor.rgb 255 0 0

/-- parse_named_color from src/overlay/renderer.rs. -/
def parse_named_color (name : String) : Option OverlayColor :=
  if name = "green" then some (OverlayColor.rgb 0 255 0)
  else if name = "lime" then some (OverlayColor.rgb 0 255 0)
  else if name = "gray" ∨ name = "grey" then some (OverlayColor.rgb 128 128 128)
  else if name = "red" then some (OverlayColor.rgb 255 0 0)
  else if name = "blue" then some (OverlayColor.rgb 0 0 255)
  else if name = "yellow" then some (OverlayColor.rgb 255 255 0)
  else if name = "cyan" then some (OverlayColor.rgb 0 255 255)
  else if name = "magenta" then some (OverlayColor.rgb 255 0 255)
  else if name = "white" then some (OverlayColor.rgb 255 255 255)
  else if name = "black" then some (OverlayColor.rgb 0 0 0)
  else if name = "orange" then some (OverlayColor.rgb 255 165 0)
  else if name = "purple" then some (OverlayColor.rgb 128 0 128)
  else if name = "pink" then some (OverlayColor.rgb 255 192 203)
  else none

/-- Value of one hexadecimal digit character, as accepted by from_str_radix. -/
def hexDigitValue (c : Char) : Option Nat :=
  if '0' ≤ c ∧ c ≤ '9' then some (c.toNat - '0'.toNat)
  else if 'a' ≤ c ∧ c ≤ 'f' then some (c.toNat - 'a'.toNat + 10)
  else if 'A' ≤ c ∧ c ≤ 'F' then some (c.toNat - 'A'.toNat + 10)
  else none

/-- u8::from_str_radix(s, 16): an optional leading plus sign, then at least
one hex digit, with the value required to fit in a u8. -/
def u8_from_str_radix16 (s : List Char) : Option Nat :=
  let digits := match s with
                | '+' :: rest => rest
                | _ => s
  match digits with
  | [] => none
  | _ =>
    let folded := digits.foldl
      (fun acc c =>
        match acc, hexDigitValue c with
        | some v, some d => some (v * 16 + d)
        | _, _ => none)
      (some 0)
    match folded with
    | some v => if v ≤ 255 then some v else none
    | none => none

/-- parse_hex_color from src/overlay/renderer.rs, applied to the characters
after the leading '#': 6 digits give an opaque color, 8 give RGBA. -/
def parse_hex_color (hex_digits : List Char) : Option OverlayColor :=
  if hex_digits.length = 6 then
    match u8_from_str_radix16 (hex_digits.take 2),
          u8_from_str_radix16 ((hex_digits.drop 2).take 2),
          u8_from_str_radix16 ((hex_digits.drop 4).take 2) with
    | some r, some g, some b => some (OverlayColor.rgb r g b)
    | _, _, _ => none
  else if hex_digits.length = 8 then
    match u8_from_str_radix16 (hex_digits.take 2),
          u8_from_str_radix16 ((hex_digits.drop 2).take 2),
          u8_from_str_radix16 ((hex_digits.drop 4).take 2),
          u8_from_str_radix16 ((hex_digits.drop 6).take 2) with
    | some r, some g, some b, some a => some (OverlayColor.new r g b a)
    | _, _, _, _ => none
  else none

/-- Whitespace trim on a character list, as str::trim does on both ends. -/
def trimChars (cs : List Char) : List Char :=
  ((cs.dropWhile Char.isWhitespace).reverse.dropWhile Char.isWhitespace).reverse

/-- Lowercasing of every character, as str::to_lowercase does (faithful on
the ASCII inputs the color and position tables can match). -/
def lowerChars (cs : List Char) : List Char :=
  cs.map Char.toLower

/-- parse_color from src/overlay/renderer.rs: trim and lowercase, try the
named colors, then hex if the string starts with '#', otherwise fail. -/
def parse_color (color_str : String) : Option OverlayColor :=
  let trimmedList := lowerChars (trimChars color_str.toList)
  match parse_named_color (String.mk trimmedList) with
  | some c => some c
  | none =>
    match trimmedList with
    | '#' :: hex_digits => parse_hex_color hex_digits
    | _ => none

/-- parse_color_with_fallback from src/overlay/renderer.rs: never fails; on a
parse failure it returns the supplied fallback color. -/
def parse_color_with_fallback (color_str : String) (fallback : OverlayColor) : OverlayColor :=
  match parse_color color_str with
  | some c => c
  | none => fallback

/-- OverlayPosition from src/overlay/wayland/position.rs. -/
inductive OverlayPosition
  | TopLeft
  | TopRight
  | BottomLeft
  | BottomRight
deriving DecidableEq, Repr

/-- OverlayPosition::from_str: trim and lowercase, then match the four
canonical names. -/
def OverlayPosition.from_str (s : String) : Except String OverlayPosition :=
  let trimmed := String.mk (lowerChars (trimChars s.toList))
  if trimmed = "top-left" then Except.ok OverlayPosition.TopLeft
  else if trimmed = "top-right" then Except.ok OverlayPosition.TopRight
  else if trimmed = "bottom-left" then Except.ok OverlayPosition.BottomLeft
  else if trimmed = "bottom-right" then Except.ok OverlayPosition.BottomRight
  else Except.error ("Invalid position: " ++ s ++
      ". Use: top-left, top-right, bottom-left, or bottom-right")

/-- parse_position_with_fallback from src/overlay/manager.rs: TopRight on
any parse error. -/
def parse_position_with_fallback (position_str : String) : OverlayPosition :=
  match OverlayPosition.from_str position_str with
  | Except.ok pos => pos
  | Except.error _ => OverlayPosition.TopRight

/-- OverlayRenderState from src/overlay/state.rs. -/
structure OverlayRenderState where
  system_state : SystemState
  has_error : Bool
  config : OverlayConfig
  awake_color : OverlayColor
  asleep_color : OverlayColor
  error_color : OverlayColor
  cached_position : OverlayPosition
deriving DecidableEq, Repr

/-- OverlayRenderState::new: parses the three configured colors independently,
falling back to the built-in defaults, and caches the parsed position. -/
def OverlayRenderState.new (system_state : SystemState) (config : OverlayConfig) :
    OverlayRenderState :=
  { system_state := system_state
    has_error := false
    config := config
    awake_color := parse_color_with_fallback config.awake_color DEFAULT_AWAKE_COLOR
    asleep_color := parse_color_with_fallback config.asleep_color DEFAULT_ASLEEP_COLOR
    error_color := parse_color_with_fallback config.error_color DEFAULT_ERROR_COLOR
    cached_position := parse_position_with_fallback config.position }

/-- OverlayRenderState::update_system_state. -/
def OverlayRenderState.update_system_state (rs : OverlayRenderState)
    (new_state : SystemState) : OverlayRenderState :=
  { rs with system_state := new_state }

/-- OverlayRenderState::set_error. -/
def OverlayRenderState.set_error (rs : OverlayRenderState) (has_error : Bool) :
    OverlayRenderState :=
  { rs with has_error := has_error }

/-- state_to_color from src/overlay/renderer.rs. -/
def state_to_color (state : SystemState) (awake_color asleep_color error_color : OverlayColor)
    (has_error : Bool) : OverlayColor :=
  if has_error then error_color
  else
    match state with
    | SystemState.Awake => awake_color
    | SystemState.Asleep => asleep_color

/-- OverlayRenderState::current_color. -/
def OverlayRenderState.current_color (rs : OverlayRenderState) : OverlayColor :=
  state_to_color rs.system_state rs.awake_color rs.asleep_color rs.error_color rs.has_error

/-- ReconnectionState from src/overlay/state.rs: failed-attempt count and the
instant (absolute nanos) of the last attempt. -/
structure ReconnectionState where
  attempt_count : Nat
  last_attempt : Nat
deriving DecidableEq, Repr

/-- ReconnectionState::new at instant `now`. -/
def ReconnectionState.new (now : Nat) : ReconnectionState :=
  { attempt_count := 0, last_attempt := now }

/-- Reinterpretation of a u32 bit pattern as an i32 (the `as i32` cast):
values at or above 2^31 come out negative. -/
def u32_as_i32 (n : Nat) : Int :=
  if n < 2147483648 then (n : Int) else (n : Int) - 4294967296

/-- Wrapping reduction of an Int into the i32 range [-2^31, 2^31), the
release-build semantics of i32 arithmetic (a debug build panics on overflow
instead of wrapping). -/
def wrap_i32 (x : Int) : Int :=
  (x + 2147483648) % 4294967296 - 2147483648

/-- ReconnectionState::next_backoff: the attempt count is cast u32-to-i32
(wrapping at 2^31), one is subtracted in i32 arithmetic (wrapping at
i32::MIN in release; a debug build panics there, which happens exactly at
attempt_count = 2^31), the result is clamped below by 0, cast back to u32
and clamped above by 5; the resulting 1000 * 2^exponent milliseconds are
capped at 30000. -/
def ReconnectionState.next_backoff (s : ReconnectionState) : Duration :=
  let base_millis : Nat := 1000
  let exponent : Nat := min (max (wrap_i32 (u32_as_i32 s.attempt_count - 1)) 0).toNat 5
  let millis := base_millis * 2 ^ exponent
  let capped := min millis 30000
  Duration.from_millis capped

/-- ReconnectionState::record_failure at instant `now`: bump the u32 count
(wrapping at 2^32 in release builds), stamp the instant, and return the new
backoff. -/
def ReconnectionState.record_failure (s : ReconnectionState) (now : Nat) :
    ReconnectionState × Duration :=
  let s' := { attempt_count := (s.attempt_count + 1) % 4294967296, last_attempt := now }
  (s', s'.next_backoff)

/-- ReconnectionState::reset at instant `now`: back to zero attempts. -/
def ReconnectionState.reset (_s : ReconnectionState) (now : Nat) : ReconnectionState :=
  { attempt_count := 0, last_attempt := now }

/-- ReconnectionState::should_retry at instant `now`. -/
def ReconnectionState.should_retry (s : ReconnectionState) (now : Nat) : Bool :=
  decide (now - s.last_attempt ≥ s.next_backoff.nanos)

/-- Default impl for OverlayConfig from src/config/mod.rs. -/
def OverlayConfig.default : OverlayConfig :=
  { awake_color := "green"
    asleep_color := "gray"
    error_color := "red"
    position := "top-right" }

/-- Default impl for DictationServiceConfig from src/config/mod.rs. -/
def DictationServiceConfig.default : DictationServiceConfig :=
  { host := "127.0.0.1", port := 5123 }

/-- Default impl for Config from src/config/mod.rs. -/
def Config.default : Config :=
  { auto_sleep_timeout_secs := 300
    command_pause_threshold_ms := 700
    dictation_pause_threshold_ms := 900
    overlay := OverlayConfig.default
    dictation_service := DictationServiceConfig.default
    enable_activation_demo := false
    activation_demo_interval_secs := 10 }

/-- Alphabet of the externally triggerable activation operations, each stamped
with the absolute instant at which it runs. -/
inductive ActOp
  | wake (now : Nat)
  | sleepCmd (now : Nat)
  | cmdActivity (now : Nat)
  | dictActivity (now : Nat)
  | setTimeout (now : Nat) (d : Duration)
  | timerCheck (now : Nat)
deriving DecidableEq, Repr

/-- Applies one activation operation to the combined manager + timer state. -/
def ActivationSys.applyOp (s : ActivationSys) (op : ActOp) : ActivationSys :=
  match op with
  | ActOp.wake now => s.wakeAt now
  | ActOp.sleepCmd now => s.sleepAt now
  | ActOp.cmdActivity now => s.activityAt now
  | ActOp.dictActivity now => s.activityAt now
  | ActOp.setTimeout now d => s.setTimeoutAt now d
  | ActOp.timerCheck now => s.expireAt now

/-- Whether an operation is the wake call. -/
def ActOp.isWake : ActOp → Bool
  | ActOp.wake _ => true
  | _ => false

/-- C1, counterexample: the claim says that after set_timeout(T') while Awake
the next expiry is measured from the last activity using T'.  Concretely: wake
at t = 0 with timeout 100 s (last activity is the wake itself, at 0), then
set_timeout(60 s) at t = 50 s.  The claim predicts expiry at 0 + 60 s; the
code restarts sleep(from_secs(60)) at the set_timeout call, so the armed
deadline is 110 s, not 60 s. -/
theorem C1_counterexample_next_expiry_not_from_last_activity :
    (ActivationSys.setTimeoutAt
        (ActivationSys.wakeAt (ActivationSys.boot (ActivationManager.new 100 true)) 0)
        (50 * nsPerSec) (Duration.from_secs 60)).deadline = 110 * nsPerSec ∧
    (ActivationSys.setTimeoutAt
        (ActivationSys.wakeAt (ActivationSys.boot (ActivationManager.new 100 true)) 0)
        (50 * nsPerSec) (Duration.from_secs 60)).deadline ≠ 0 + 60 * nsPerSec := by
  decide

/-- C1, amended: if set_timeout(T') runs at instant `now` while the machine is
Awake with the timer armed, the next inactivity expiry is measured from the
set_timeout call itself: the new deadline is now + T' (whole seconds), i.e. the
timer restarts with the full new duration; and set_timeout publishes nothing
and changes neither the state nor the transition reason. -/
theorem C1_set_timeout_measures_next_expiry_from_call
    (s : ActivationSys) (now : Nat) (d : Duration)
    (hAwake : s.mgr.state = SystemState.Awake) (hArmed : s.armed = true) :
    (s.setTimeoutAt now d).deadline = now + d.as_secs * nsPerSec ∧
    (s.setTimeoutAt now d).mgr.state = s.mgr.state ∧
    (s.setTimeoutAt now d).mgr.transition = s.mgr.transition ∧
    (s.setTimeoutAt now d).mgr.channel = s.mgr.channel := by
  simp [ActivationSys.setTimeoutAt, ActivationManager.set_timeout, hAwake, hArmed,
    Duration.as_secs]

/-- C1, witness: the amended theorem applied to a woken manager at t = 50 s
with a 60 s timeout. -/
theorem C1_set_timeout_measures_next_expiry_from_call_witness :
    ((ActivationSys.wakeAt (ActivationSys.boot (ActivationManager.new 100 true)) 0).setTimeoutAt
        (50 * nsPerSec) (Duration.from_secs 60)).deadline
      = 50 * nsPerSec + (Duration.from_secs 60).as_secs * nsPerSec ∧
    ((ActivationSys.wakeAt (ActivationSys.boot (ActivationManager.new 100 true)) 0).setTimeoutAt
        (50 * nsPerSec) (Duration.from_secs 60)).mgr.channel
      = (ActivationSys.wakeAt (ActivationSys.boot (ActivationManager.new 100 true)) 0).mgr.channel :=
  ⟨(C1_set_timeout_measures_next_expiry_from_call _ (50 * nsPerSec) (Duration.from_secs 60)
      (by decide) (by decide)).1,
   (C1_set_timeout_measures_next_expiry_from_call _ (50 * nsPerSec) (Duration.from_secs 60)
      (by decide) (by decide)).2.2.2⟩

/-- Helper: one supervisor iteration whose watcher dies (uptime below 60 s)
while retries remain publishes Restarting with the incremented attempt count
and sleeps backoff_duration of the incremented count before relaunching. -/
theorem supervisorRun_retry_step (rs : WatcherRestartState) (u : Duration)
    (rest : List Duration) (hu : u.as_secs < 60)
    (hr : rs.attempt_count < rs.max_attempts) :
    supervisorRun rs (u :: rest) =
      { published := (if rs.attempt_count = 0 then [WatcherHealth.Healthy] else []) ++
          WatcherHealth.Restarting (rs.attempt_count + 1) ::
            (supervisorRun
              { attempt_count := rs.attempt_count + 1, max_attempts := rs.max_attempts }
              rest).published
        backoffsMs := 1000 * 2 ^ min (rs.attempt_count + 1) 5 ::
            (supervisorRun
              { attempt_count := rs.attempt_count + 1, max_attempts := rs.max_attempts }
              rest).backoffsMs
        stopped := (supervisorRun
              { attempt_count := rs.attempt_count + 1, max_attempts := rs.max_attempts }
              rest).stopped } := by
  have h60 : ¬ (u.as_secs ≥ 60) := by omega
  simp [supervisorRun, h60, WatcherRestartState.should_retry, hr,
    WatcherRestartState.record_attempt, WatcherRestartState.backoff_duration_ms]

/-- Helper: one supervisor iteration whose watcher dies (uptime below 60 s)
with retries exhausted publishes Failed and breaks permanently. -/
theorem supervisorRun_fail_step (rs : WatcherRestartState) (u : Duration)
    (rest : List Duration) (hu : u.as_secs < 60)
    (hr : ¬ rs.attempt_count < rs.max_attempts) :
    supervisorRun rs (u :: rest) =
      { published := (if rs.attempt_count = 0 then [WatcherHealth.Healthy] else []) ++
          [WatcherHealth.Failed watcherFailedReason]
        backoffsMs := []
        stopped := true } := by
  have h60 : ¬ (u.as_secs ≥ 60) := by omega
  simp [supervisorRun, h60, WatcherRestartState.should_retry, hr]

/-- C2: whenever a Watch Loop incarnation reaches an uptime of 60 seconds,
the supervisor's sleep arm wins the select race, so for any incarnation with
uptime of at least 60 seconds the supervisor output is exactly one Healthy
publish (the sleep arm's when attempts > 0, the loop head's when the counter
was already 0) before the relaunch, with no Restarting value and no backoff
sleep, and the relaunch continues from a retry counter reset to 0: the whole
trace is the Healthy followed by the relaunched run from the reset state.
The incarnation's later exit itself is never observed by the supervisor. -/
theorem C2_long_uptime_resets_counter_publishes_healthy_no_backoff
    (rs : WatcherRestartState) (u : Duration) (rest : List Duration)
    (hu : 60 ≤ u.as_secs) :
    supervisorRun rs (u :: rest) =
      { published := WatcherHealth.Healthy :: (supervisorRun rs.reset rest).published
        backoffsMs := (supervisorRun rs.reset rest).backoffsMs
        stopped := (supervisorRun rs.reset rest).stopped } ∧
    rs.reset.attempt_count = 0 := by
  refine ⟨?_, rfl⟩
  rcases Nat.eq_zero_or_pos rs.attempt_count with h0 | hpos
  · simp [supervisorRun, hu, h0]
  · simp [supervisorRun, hu, hpos, Nat.pos_iff_ne_zero.mp hpos]

/-- C2, witness: the theorem applied to two prior attempts and a 70 second
incarnation. -/
theorem C2_long_uptime_resets_counter_publishes_healthy_no_backoff_witness :
    supervisorRun { attempt_count := 2, max_attempts := 5 } [Duration.from_secs 70] =
      { published := WatcherHealth.Healthy ::
          (supervisorRun
            (WatcherRestartState.reset { attempt_count := 2, max_attempts := 5 }) []).published
        backoffsMs := (supervisorRun
            (WatcherRestartState.reset { attempt_count := 2, max_attempts := 5 }) []).backoffsMs
        stopped := (supervisorRun
            (WatcherRestartState.reset { attempt_count := 2, max_attempts := 5 }) []).stopped } ∧
    (WatcherRestartState.reset { attempt_count := 2, max_attempts := 5 }).attempt_count = 0 :=
  C2_long_uptime_resets_counter_publishes_healthy_no_backoff
    { attempt_count := 2, max_attempts := 5 } (Duration.from_secs 70) [] (by decide)

/-- C3: for six consecutive watcher deaths each with uptime below 60 s, the
supervisor run publishes exactly Healthy, Restarting 1 through Restarting 5,
then the terminal Failed on the sixth death, sleeps backoffs 2000, 4000,
8000, 16000, 32000 ms before the five relaunches, and then stops permanently;
and backoff_duration is 1000 ms * 2 ^ min(attempt_count, 5) for every state. -/
theorem C3_restart_backoff_and_health_sequence
    (u1 u2 u3 u4 u5 u6 : Duration)
    (h1 : u1.as_secs < 60) (h2 : u2.as_secs < 60) (h3 : u3.as_secs < 60)
    (h4 : u4.as_secs < 60) (h5 : u5.as_secs < 60) (h6 : u6.as_secs < 60) :
    supervisorRun (WatcherRestartState.new 5) [u1, u2, u3, u4, u5, u6] =
      { published := [WatcherHealth.Healthy, WatcherHealth.Restarting 1,
          WatcherHealth.Restarting 2, WatcherHealth.Restarting 3, WatcherHealth.Restarting 4,
          WatcherHealth.Restarting 5, WatcherHealth.Failed watcherFailedReason]
        backoffsMs := [2000, 4000, 8000, 16000, 32000]
        stopped := true } ∧
    (∀ rs : WatcherRestartState, rs.backoff_duration_ms = 1000 * 2 ^ min rs.attempt_count 5) := by
  constructor
  · rw [supervisorRun_retry_step _ _ _ h1 (by decide),
      supervisorRun_retry_step _ _ _ h2 (by decide),
      supervisorRun_retry_step _ _ _ h3 (by decide),
      supervisorRun_retry_step _ _ _ h4 (by decide),
      supervisorRun_retry_step _ _ _ h5 (by decide),
      supervisorRun_fail_step _ _ _ h6 (by decide)]
    decide
  · intro rs
    rfl

/-- C3, witness: the theorem applied to six concrete short uptimes. -/
theorem C3_restart_backoff_and_health_sequence_witness :
    supervisorRun (WatcherRestartState.new 5)
        [Duration.from_secs 0, Duration.from_secs 1, Duration.from_secs 2,
         Duration.from_secs 3, Duration.from_secs 59, Duration.from_secs 0] =
      { published := [WatcherHealth.Healthy, WatcherHealth.Restarting 1,
          WatcherHealth.Restarting 2, WatcherHealth.Restarting 3, WatcherHealth.Restarting 4,
          WatcherHealth.Restarting 5, WatcherHealth.Failed watcherFailedReason]
        backoffsMs := [2000, 4000, 8000, 16000, 32000]
        stopped := true } :=
  (C3_restart_backoff_and_health_sequence _ _ _ _ _ _
    (by decide) (by decide) (by decide) (by decide) (by decide) (by decide)).1

/-- Helper: wrap_i32 is the identity on the i32 range. -/
theorem wrap_i32_eq_of_mem (x : Int) (hlo : -2147483648 ≤ x) (hhi : x < 2147483648) :
    wrap_i32 x = x := by
  unfold wrap_i32
  omega

/-- Helper: below 2^31 the cast chain of next_backoff reduces to Nat
truncated subtraction clamped at 5. -/
theorem reconnection_exponent_eq (c : Nat) (hc : c < 2147483648) :
    min (max (wrap_i32 (u32_as_i32 c - 1)) 0).toNat 5 = min (c - 1) 5 := by
  have hcast : u32_as_i32 c = (c : Int) := by
    unfold u32_as_i32
    rw [if_pos hc]
  rw [hcast, wrap_i32_eq_of_mem _ (by omega) (by omega)]
  congr 1
  omega

/-- Helper: under the 30000 ms cap, clamping the exponent at 5 is invisible. -/
theorem reconnection_cap_eq (c : Nat) :
    min (1000 * 2 ^ min (c - 1) 5) 30000 = min (1000 * 2 ^ (c - 1)) 30000 := by
  rcases le_or_lt (c - 1) 5 with h | h
  · rw [Nat.min_eq_left h]
  · have h6 : 6 ≤ c - 1 := h
    have hpow : (64 : Nat) ≤ 2 ^ (c - 1) := by
      calc (64 : Nat) = 2 ^ 6 := by norm_num
        _ ≤ 2 ^ (c - 1) := Nat.pow_le_pow_right (by norm_num) h6
    have h30 : (30000 : Nat) ≤ 1000 * 2 ^ (c - 1) := by
      calc (30000 : Nat) ≤ 1000 * 64 := by norm_num
        _ ≤ 1000 * 2 ^ (c - 1) := Nat.mul_le_mul_left 1000 hpow
    rw [Nat.min_eq_right (Nat.le_of_lt h), Nat.min_eq_right h30]
    norm_num

/-- C4, counterexample: the claimed formula min(1000 ms * 2^max(n-1,0),
30000 ms) fails at n = 2^31 + 1 recorded failures (reachable, record_failure
has no cap): the u32-to-i32 cast wraps to a negative value, the exponent
clamps to 0 and the code returns the base 1000 ms, while the claimed formula
gives the 30000 ms cap. -/
theorem C4_counterexample_wrapping_cast_restarts_backoff :
    ReconnectionState.next_backoff ⟨2147483649, 0⟩ = Duration.from_millis 1000 ∧
    min (1000 * 2 ^ (2147483649 - 1)) 30000 = 30000 ∧
    (1000 : Nat) ≠ 30000 := by
  refine ⟨by decide, ?_, by decide⟩
  have hpow : (32 : Nat) ≤ 2 ^ (2147483649 - 1) := by
    calc (32 : Nat) = 2 ^ 5 := by norm_num
      _ ≤ 2 ^ (2147483649 - 1) := Nat.pow_le_pow_right (by norm_num) (by norm_num)
  have h30 : (30000 : Nat) ≤ 1000 * 2 ^ (2147483649 - 1) := by
    calc (30000 : Nat) ≤ 1000 * 32 := by norm_num
      _ ≤ 1000 * 2 ^ (2147483649 - 1) := Nat.mul_le_mul_left 1000 hpow
  rw [Nat.min_eq_right h30]

/-- C4, amended: for every count n < 2^31 of recorded consecutive connection
failures (the region where the i32 cast is value-preserving; beyond it the
wrap restarts the backoff at the base, and a debug build panics at exactly
2^31), next_backoff equals min(1000 ms * 2^(n - 1), 30000 ms) (Nat
subtraction is exactly the claimed max(n - 1, 0)); the sequence at counts
1..5 is 1000, 2000, 4000, 8000, 16000 ms and every count from 6 up to the
bound is capped at 30000 ms; record_failure increments the u32 count; and
reset returns the state to attempt count 0, whose backoff is 1000 ms. -/
theorem C4_reconnection_backoff_formula_sequence_and_reset :
    (∀ s : ReconnectionState, s.attempt_count < 2147483648 →
        s.next_backoff = Duration.from_millis (min (1000 * 2 ^ (s.attempt_count - 1)) 30000)) ∧
    (∀ t : Nat,
        ReconnectionState.next_backoff ⟨1, t⟩ = Duration.from_millis 1000 ∧
        ReconnectionState.next_backoff ⟨2, t⟩ = Duration.from_millis 2000 ∧
        ReconnectionState.next_backoff ⟨3, t⟩ = Duration.from_millis 4000 ∧
        ReconnectionState.next_backoff ⟨4, t⟩ = Duration.from_millis 8000 ∧
        ReconnectionState.next_backoff ⟨5, t⟩ = Duration.from_millis 16000) ∧
    (∀ n t : Nat, 6 ≤ n → n < 2147483648 →
        ReconnectionState.next_backoff ⟨n, t⟩ = Duration.from_millis 30000) ∧
    (∀ s : ReconnectionState, ∀ now : Nat,
        ((s.record_failure now).1).attempt_count = (s.attempt_count + 1) % 4294967296) ∧
    (∀ s : ReconnectionState, ∀ now : Nat,
        (s.reset now).attempt_count = 0 ∧
        (s.reset now).next_backoff = Duration.from_millis 1000) := by
  have hform : ∀ s : ReconnectionState, s.attempt_count < 2147483648 →
      s.next_backoff = Duration.from_millis (min (1000 * 2 ^ (s.attempt_count - 1)) 30000) := by
    intro s hs
    simp only [ReconnectionState.next_backoff]
    rw [reconnection_exponent_eq _ hs, reconnection_cap_eq]
  refine ⟨hform, ?_, ?_, ?_, ?_⟩
  · intro t
    refine ⟨?_, ?_, ?_, ?_, ?_⟩ <;> · rw [hform _ (by simp)]; norm_num
  · intro n t hn hn31
    rw [hform _ hn31]
    have h5 : 5 ≤ n - 1 := by omega
    have hpow : (32 : Nat) ≤ 2 ^ (n - 1) := by
      calc (32 : Nat) = 2 ^ 5 := by norm_num
        _ ≤ 2 ^ (n - 1) := Nat.pow_le_pow_right (by norm_num) h5
    have h30 : (30000 : Nat) ≤ 1000 * 2 ^ (n - 1) := by
      calc (30000 : Nat) ≤ 1000 * 32 := by norm_num
        _ ≤ 1000 * 2 ^ (n - 1) := Nat.mul_le_mul_left 1000 hpow
    rw [Nat.min_eq_right h30]
  · intro s now
    rfl
  · intro s now
    exact ⟨rfl, by rw [hform _ (by simp [ReconnectionState.reset])]; simp [ReconnectionState.reset]⟩

/-- C4, witness: the capped branch of the amended theorem applied at count 7. -/
theorem C4_reconnection_backoff_formula_sequence_and_reset_witness :
    ReconnectionState.next_backoff ⟨7, 0⟩ = Duration.from_millis 30000 :=
  C4_reconnection_backoff_formula_sequence_and_reset.2.2.1 7 0 (by decide) (by decide)

/-- C5: when a reload attempt reads a body that fails to parse, or the read
itself fails, reload_config leaves the published Configuration (hence each of
its fields) and the channel's change counter untouched, returns Ok, and the
watch loop keeps running on the last-known-good Configuration. -/
theorem C5_failed_reload_keeps_config_and_counter
    (parse : String → Option Config) (read : ReadResult) (ch : WatchChannel Config)
    (hfail : read = ReadResult.ioErr ∨
      ∃ contents, read = ReadResult.ok contents ∧ parse contents = none) :
    reload_config parse read ch = (ch, Except.ok ()) ∧
    (reload_config parse read ch).1.value = ch.value ∧
    (reload_config parse read ch).1.counter = ch.counter ∧
    (reload_config parse read ch).1.value.auto_sleep_timeout_secs
        = ch.value.auto_sleep_timeout_secs ∧
    (reload_config parse read ch).1.value.overlay = ch.value.overlay ∧
    watchLoopOnDebounceElapsed parse read ch = (ch, LoopOutcome.keepRunning) := by
  rcases hfail with h | ⟨contents, hread, hparse⟩
  · subst h
    exact ⟨rfl, rfl, rfl, rfl, rfl, rfl⟩
  · subst hread
    simp [reload_config, watchLoopOnDebounceElapsed, hparse]

/-- C5, witness: the theorem applied to a parser rejecting a concrete invalid
body over the default configuration at counter 3. -/
theorem C5_failed_reload_keeps_config_and_counter_witness :
    reload_config (fun _ => none) (ReadResult.ok "invalid toml body")
        { value := Config.default, counter := 3, receiversAlive := true }
      = ({ value := Config.default, counter := 3, receiversAlive := true }, Except.ok ()) ∧
    watchLoopOnDebounceElapsed (fun _ => none) (ReadResult.ok "invalid toml body")
        { value := Config.default, counter := 3, receiversAlive := true }
      = ({ value := Config.default, counter := 3, receiversAlive := true },
          LoopOutcome.keepRunning) :=
  ⟨(C5_failed_reload_keeps_config_and_counter (fun _ => none)
      (ReadResult.ok "invalid toml body")
      { value := Config.default, counter := 3, receiversAlive := true }
      (Or.inr ⟨"invalid toml body", rfl, rfl⟩)).1,
   (C5_failed_reload_keeps_config_and_counter (fun _ => none)
      (ReadResult.ok "invalid toml body")
      { value := Config.default, counter := 3, receiversAlive := true }
      (Or.inr ⟨"invalid toml body", rfl, rfl⟩)).2.2.2.2.2⟩

/-- C6: record_error makes the counter 1 when more than 10 seconds elapsed
since the previous error, and otherwise increments it by one (also on the
first error); the fatal flag holds exactly when the new counter reaches the
threshold 5; and the watch loop exits with an error surfaced to the
supervisor exactly on the fatal flag, keeping running on any earlier count. -/
theorem C6_notify_error_counter_reset_and_fatal_threshold
    (tr : WatcherErrorTracker) (now : Nat)
    (hmax : tr.max_consecutive_errors = 5)
    (hwin : tr.error_time_window = Duration.from_secs 10) :
    (∀ last, tr.last_notify_error_time = some last →
        now - last > (Duration.from_secs 10).nanos →
        (tr.record_error now).1.consecutive_notify_errors = 1) ∧
    (∀ last, tr.last_notify_error_time = some last →
        ¬ (now - last > (Duration.from_secs 10).nanos) →
        (tr.record_error now).1.consecutive_notify_errors
          = tr.consecutive_notify_errors + 1) ∧
    (tr.last_notify_error_time = none →
        (tr.record_error now).1.consecutive_notify_errors
          = tr.consecutive_notify_errors + 1) ∧
    ((tr.record_error now).2 = true ↔
        5 ≤ (tr.record_error now).1.consecutive_notify_errors) ∧
    ((tr.record_error now).2 = true →
        (watchLoopOnNotifyError tr now).2
          = LoopOutcome.fatalExit "Too many consecutive notify errors") ∧
    ((tr.record_error now).2 = false →
        (watchLoopOnNotifyError tr now).2 = LoopOutcome.keepRunning) := by
  have hw : tr.error_time_window.nanos = (Duration.from_secs 10).nanos := by rw [hwin]
  refine ⟨?_, ?_, ?_, ?_, ?_, ?_⟩
  · intro last hlast hgt
    simp [WatcherErrorTracker.record_error, hlast, hw, hgt]
  · intro last hlast hle
    simp [WatcherErrorTracker.record_error, hlast, hw, hle]
  · intro hnone
    simp [WatcherErrorTracker.record_error, hnone]
  · rcases hl : tr.last_notify_error_time with _ | last
    · simp [WatcherErrorTracker.record_error, hl, hmax]
      try omega
    · rcases lt_or_le tr.error_time_window.nanos (now - last) with hgt | hle
      · simp [WatcherErrorTracker.record_error, hl, hgt, hmax]
        try omega
      · simp [WatcherErrorTracker.record_error, hl, Nat.not_lt.mpr hle, hmax]
        try omega
  · intro hfatal
    simp [watchLoopOnNotifyError, hfatal]
  · intro hfatal
    simp [watchLoopOnNotifyError, hfatal]

/-- C6, witness: the theorem applied to a fresh tracker at instant 0. -/
theorem C6_notify_error_counter_reset_and_fatal_threshold_witness :
    (WatcherErrorTracker.new.record_error 0).1.consecutive_notify_errors
        = WatcherErrorTracker.new.consecutive_notify_errors + 1 ∧
    ((WatcherErrorTracker.new.record_error 0).2 = true ↔
        5 ≤ (WatcherErrorTracker.new.record_error 0).1.consecutive_notify_errors) :=
  ⟨(C6_notify_error_counter_reset_and_fatal_threshold WatcherErrorTracker.new 0
      rfl rfl).2.2.1 rfl,
   (C6_notify_error_counter_reset_and_fatal_threshold WatcherErrorTracker.new 0
      rfl rfl).2.2.2.1⟩

/-- C7: wake_via_wake_word on an Awake manager and sleep_via_command on an
Asleep manager are complete no-ops: the whole manager record, so in
particular the stored state, the transition reason and the channel with its
change counter, is unchanged; hence repeated calls are idempotent. -/
theorem C7_wake_sleep_idempotent :
    (∀ m : ActivationManager, m.state = SystemState.Awake → m.wake_via_wake_word = m) ∧
    (∀ m : ActivationManager, m.state = SystemState.Asleep → m.sleep_via_command = m) ∧
    (∀ m : ActivationManager,
        m.wake_via_wake_word.wake_via_wake_word = m.wake_via_wake_word) ∧
    (∀ m : ActivationManager,
        m.sleep_via_command.sleep_via_command = m.sleep_via_command) := by
  have hwake : ∀ m : ActivationManager, m.state = SystemState.Awake →
      m.wake_via_wake_word = m := by
    intro m h
    simp [ActivationManager.wake_via_wake_word, h]
  have hsleep : ∀ m : ActivationManager, m.state = SystemState.Asleep →
      m.sleep_via_command = m := by
    intro m h
    simp [ActivationManager.sleep_via_command, h]
  refine ⟨hwake, hsleep, ?_, ?_⟩
  · intro m
    cases hm : m.state
    · apply hwake
      simp [ActivationManager.wake_via_wake_word, hm]
    · simp [hwake m hm]
  · intro m
    cases hm : m.state
    · simp [hsleep m hm]
    · apply hsleep
      simp [ActivationManager.sleep_via_command, hm]

/-- C7, witness: a second wake after a wake, and a sleep while already
Asleep, both leave everything unchanged. -/
theorem C7_wake_sleep_idempotent_witness :
    (ActivationManager.new 300 true).wake_via_wake_word.wake_via_wake_word
        = (ActivationManager.new 300 true).wake_via_wake_word ∧
    (ActivationManager.new 300 true).sleep_via_command = ActivationManager.new 300 true :=
  ⟨C7_wake_sleep_idempotent.1 (ActivationManager.new 300 true).wake_via_wake_word (by decide),
   C7_wake_sleep_idempotent.2.1 (ActivationManager.new 300 true) (by decide)⟩

/-- Helper: a run of non-wake operations from an Asleep state keeps the state
Asleep and leaves the channel and transition reason untouched. -/
theorem applyOps_preserve_asleep (ops : List ActOp) :
    ∀ s : ActivationSys, s.mgr.state = SystemState.Asleep →
      (∀ op ∈ ops, op.isWake = false) →
      (ops.foldl ActivationSys.applyOp s).mgr.state = SystemState.Asleep ∧
      (ops.foldl ActivationSys.applyOp s).mgr.channel = s.mgr.channel ∧
      (ops.foldl ActivationSys.applyOp s).mgr.transition = s.mgr.transition := by
  induction ops with
  | nil =>
    intro s h _
    exact ⟨h, rfl, rfl⟩
  | cons op rest ih =>
    intro s hst hnw
    have hop : op.isWake = false := hnw op (List.mem_cons_self op rest)
    have hstep : (s.applyOp op).mgr.state = SystemState.Asleep ∧
        (s.applyOp op).mgr.channel = s.mgr.channel ∧
        (s.applyOp op).mgr.transition = s.mgr.transition := by
      cases op with
      | wake now => simp [ActOp.isWake] at hop
      | sleepCmd now =>
        simp [ActivationSys.applyOp, ActivationSys.sleepAt,
          ActivationManager.sleep_via_command, hst]
      | cmdActivity now =>
        simp [ActivationSys.applyOp, ActivationSys.activityAt, hst]
      | dictActivity now =>
        simp [ActivationSys.applyOp, ActivationSys.activityAt, hst]
      | setTimeout now d =>
        cases harm : s.armed <;>
          simp [ActivationSys.applyOp, ActivationSys.setTimeoutAt,
            ActivationManager.set_timeout, hst, harm]
      | timerCheck now =>
        simp only [ActivationSys.applyOp, ActivationSys.expireAt]
        split
        · simp [ActivationManager.timer_fire, hst]
        · exact ⟨hst, rfl, rfl⟩
    have hrest := ih (s.applyOp op) hstep.1 (fun o ho => hnw o (List.mem_cons_of_mem op ho))
    refine ⟨?_, ?_, ?_⟩
    · rw [List.foldl_cons]
      exact hrest.1
    · rw [List.foldl_cons, hrest.2.1, hstep.2.1]
    · rw [List.foldl_cons, hrest.2.2, hstep.2.2]

/-- C8: at construction the watch channel is seeded with (Asleep, WakeWord)
at counter 0, so a subscriber reading before any transition, and
current_transition, observe reason WakeWord although no wake ever happened;
and along any run of operations that contains no wake, the channel still
holds exactly that seeded value. -/
theorem C8_channel_seeded_asleep_wakeword_until_first_wake
    (T : Nat) (receivers : Bool) (ops : List ActOp)
    (hnw : ∀ op ∈ ops, op.isWake = false) :
    (ActivationManager.new T receivers).channel.value
        = (SystemState.Asleep, StateTransition.WakeWord) ∧
    (ActivationManager.new T receivers).channel.counter = 0 ∧
    (ActivationManager.new T receivers).current_transition = StateTransition.WakeWord ∧
    (ops.foldl ActivationSys.applyOp
        (ActivationSys.boot (ActivationManager.new T receivers))).mgr.channel
      = (ActivationManager.new T receivers).channel := by
  refine ⟨rfl, rfl, rfl, ?_⟩
  exact (applyOps_preserve_asleep ops
    (ActivationSys.boot (ActivationManager.new T receivers)) rfl hnw).2.1

/-- C8, witness: the theorem applied to a run of sleep, activity, set_timeout
and timer-expiry operations without a wake. -/
theorem C8_channel_seeded_asleep_wakeword_until_first_wake_witness :
    ([ActOp.sleepCmd 1, ActOp.cmdActivity 2, ActOp.dictActivity 3,
        ActOp.setTimeout 4 (Duration.from_secs 5), ActOp.timerCheck 6].foldl
        ActivationSys.applyOp (ActivationSys.boot (ActivationManager.new 300 true))).mgr.channel
      = (ActivationManager.new 300 true).channel ∧
    (ActivationManager.new 300 true).current_transition = StateTransition.WakeWord :=
  ⟨(C8_channel_seeded_asleep_wakeword_until_first_wake 300 true
      [ActOp.sleepCmd 1, ActOp.cmdActivity 2, ActOp.dictActivity 3,
        ActOp.setTimeout 4 (Duration.from_secs 5), ActOp.timerCheck 6] (by decide)).2.2.2,
   (C8_channel_seeded_asleep_wakeword_until_first_wake 300 true
      [ActOp.sleepCmd 1, ActOp.cmdActivity 2, ActOp.dictActivity 3,
        ActOp.setTimeout 4 (Duration.from_secs 5), ActOp.timerCheck 6] (by decide)).2.2.1⟩

/-- C9: set_timeout stores only the whole-second part of its Duration
(as_secs truncation); set_timeout(1500 ms) yields the same manager as
set_timeout(1 s); and a sub-second duration installs a zero-second timeout,
so after the timeout change at instant `now` the armed deadline is `now`
itself and the very next timer check fires: the state becomes Asleep, the
timer disarms, and (with a live receiver) the channel publishes
(Asleep, InactivityTimeout). -/
theorem C9_set_timeout_truncates_to_whole_seconds :
    (∀ m d, (ActivationManager.set_timeout m d).timeout_secs = d.nanos / nsPerSec) ∧
    (∀ m, ActivationManager.set_timeout m (Duration.from_millis 1500)
        = ActivationManager.set_timeout m (Duration.from_secs 1)) ∧
    (∀ d : Duration, d.nanos < nsPerSec → ∀ s : ActivationSys, ∀ now : Nat,
        s.mgr.state = SystemState.Awake → s.armed = true →
        ((s.setTimeoutAt now d).deadline = now ∧
         ((s.setTimeoutAt now d).expireAt now).mgr.state = SystemState.Asleep ∧
         ((s.setTimeoutAt now d).expireAt now).armed = false ∧
         (s.mgr.channel.receiversAlive = true →
           ((s.setTimeoutAt now d).expireAt now).mgr.channel.value
             = (SystemState.Asleep, StateTransition.InactivityTimeout)))) := by
  refine ⟨fun m d => rfl, fun m => rfl, fun d hd s now hAwake hArmed => ?_⟩
  have hz : d.as_secs = 0 := Nat.div_eq_of_lt hd
  simp [ActivationSys.setTimeoutAt, ActivationSys.expireAt, ActivationManager.set_timeout,
    ActivationManager.timer_fire, WatchChannel.send, hAwake, hArmed, hz]
  intro hrecv
  simp [hrecv]

/-- C9, witness: a 900 ms timeout set at t = 7 s on a woken manager expires
at the very same instant. -/
theorem C9_set_timeout_truncates_to_whole_seconds_witness :
    ((ActivationSys.wakeAt (ActivationSys.boot (ActivationManager.new 300 true)) 0).setTimeoutAt
        (7 * nsPerSec) (Duration.from_millis 900)).deadline = 7 * nsPerSec ∧
    (((ActivationSys.wakeAt (ActivationSys.boot (ActivationManager.new 300 true)) 0).setTimeoutAt
        (7 * nsPerSec) (Duration.from_millis 900)).expireAt (7 * nsPerSec)).mgr.state
      = SystemState.Asleep :=
  ⟨(C9_set_timeout_truncates_to_whole_seconds.2.2 (Duration.from_millis 900) (by decide)
      _ (7 * nsPerSec) (by decide) (by decide)).1,
   (C9_set_timeout_truncates_to_whole_seconds.2.2 (Duration.from_millis 900) (by decide)
      _ (7 * nsPerSec) (by decide) (by decide)).2.1⟩

